import Mathlib

/-!
Verification of the `gcs-export` utility (src/bin/gcs-export.cpp) of the
CalendarScheduler repository.

The program is a one-shot batch job: it parses the FPP settings JSON file,
extracts `Latitude`, `Longitude`, `TimeZone`, embeds the locale payload,
validates the values, writes a snapshot JSON document and exits.

Shallow embedding choices:
* JSON documents are modelled by `JValue`.  jsoncpp stores object members in a
  `std::map` keyed by the member name (byte-wise string order), so `setMember`
  performs an order-preserving sorted insertion and serialization order equals
  key order.
* jsoncpp's `Value::isObject()` returns `true` for `nullValue` as well as
  `objectValue` (a null value is convertible to an object); `jIsObject`
  reflects that.
* The C `atof` conversion is an external libc function; it is a parameter
  `atofFn : String → Rat` of the run.  The only operations the program performs
  on the converted doubles are storage and comparison with `0.0`, which `Rat`
  carries exactly, so no floating-point arithmetic needs to be modelled.
* The settings input has three cases (`SettingsSource`): the `ifstream` fails
  to open; it opens but `operator>> (std::istream&, Json::Value&)` fails to
  parse (jsoncpp then throws `Json::RuntimeError`, which `main` does not catch,
  so the process aborts); or it parses to a document.
* `LocaleHolder::GetLocale()` is external (FPPLocale.h, not in this
  repository); its result is the `locale` parameter of the run.
* Whether `std::ofstream out(OUTPUT_PATH)` succeeds is the `outputWritable`
  parameter.
* A run's observable behaviour is a `RunOutcome`: either normal termination
  with the written document (if any), the exit code and the `std::cerr` lines
  emitted by the program, or abnormal termination by an uncaught exception.
-/

/-- JSON values, as in jsoncpp: object members are kept sorted by key, the
order `std::map` maintains. -/
inductive JValue : Type where
  | jnull : JValue
  | jbool : Bool → JValue
  | jint : Int → JValue
  | jnum : Rat → JValue
  | jstr : String → JValue
  | jobj : List (String × JValue) → JValue

/-- Lexicographic order on character lists by code point, the order in which
`std::map` keeps jsoncpp object member keys (memcmp order; identical to code
point order on the ASCII keys this program uses). -/
def charsLt : List Char → List Char → Bool
  | _, [] => false
  | [], _ :: _ => true
  | a :: as, b :: bs =>
    if a.toNat < b.toNat then true
    else if b.toNat < a.toNat then false
    else charsLt as bs

/-- String order by code point (see `charsLt`). -/
def strLt (a b : String) : Bool :=
  charsLt a.data b.data

/-- Insertion into a key-sorted association list: overwrite an existing key,
otherwise insert at the sorted position (the behaviour of `std::map`
insertion as used by jsoncpp `operator[]`). -/
def insertSorted (k : String) (v : JValue) : List (String × JValue) → List (String × JValue)
  | [] => [(k, v)]
  | (k₂, v₂) :: rest =>
    if k = k₂ then (k, v) :: rest
    else if strLt k k₂ then (k, v) :: (k₂, v₂) :: rest
    else (k₂, v₂) :: insertSorted k v rest

/-- `value[key] = v` on a jsoncpp value: a null value becomes an object first
(the only uses in the program are on null or object values). -/
def setMember (j : JValue) (k : String) (v : JValue) : JValue :=
  match j with
  | JValue.jobj ms => JValue.jobj (insertSorted k v ms)
  | _ => JValue.jobj (insertSorted k v [])

/-- Member lookup on an object; `none` on any non-object or absent key. -/
def getMember? (j : JValue) (k : String) : Option JValue :=
  match j with
  | JValue.jobj ms => ms.lookup k
  | _ => none

/-- jsoncpp `Value::isMember`. -/
def isMember (j : JValue) (k : String) : Bool :=
  (getMember? j k).isSome

/-- jsoncpp `Value::isObject`: true for `objectValue` and also for
`nullValue`. -/
def jIsObject : JValue → Bool
  | JValue.jobj _ => true
  | JValue.jnull => true
  | _ => false

/-- jsoncpp `Value::isString`. -/
def jIsString : JValue → Bool
  | JValue.jstr _ => true
  | _ => false

/-- jsoncpp `Value::asString` on a string value (the program only calls it
after `isString()` has returned true). -/
def jAsString : JValue → String
  | JValue.jstr s => s
  | _ => ""

/-- `readSetting` from src/bin/gcs-export.cpp lines 29-36: read a single value
from the FPP settings JSON, returning `""` unless the settings value is an
object having `key` as a member whose value is a string. -/
def readSetting (settings : JValue) (key : String) : String :=
  if !(jIsObject settings) then ""
  else if !(isMember settings key) then ""
  else
    match getMember? settings key with
    | some v => if !(jIsString v) then "" else jAsString v
    | none => ""

/-- `SETTINGS_PATH` from the source. -/
def SETTINGS_PATH : String := "/home/fpp/media/settings"

/-- `OUTPUT_PATH` from the source. -/
def OUTPUT_PATH : String := "/home/fpp/media/plugins/GoogleCalendarScheduler/runtime/fpp-env.json"

/-- The `root["error"]` message for an unopenable settings file (line 52). -/
def openFailMsg : String := "Unable to open FPP settings file."

/-- The `root["error"]` message for missing/zero coordinates (lines 86-87). -/
def coordMissingMsg : String := "Latitude/Longitude not present (or zero) in FPP settings."

/-- The `root["error"]` message for a missing timezone (lines 95-96). -/
def tzMissingMsg : String := "Timezone not present in FPP settings."

/-- The stderr line of line 53. -/
def errOpenLine : String := "ERROR: Unable to open " ++ SETTINGS_PATH

/-- The stderr line of lines 88-90. -/
def warnCoordLine : String := "WARN: " ++ coordMissingMsg

/-- The stderr line of lines 97-99. -/
def warnTzLine : String := "WARN: " ++ tzMissingMsg

/-- The stderr line of line 109. -/
def errWriteLine : String := "ERROR: Unable to write " ++ OUTPUT_PATH

/-- How the settings-loading block (lines 47-57) can go: the `ifstream` fails
to open; it opens but jsoncpp `operator>>` fails to parse (and throws); or it
parses successfully to a document. -/
inductive SettingsSource : Type where
  | openFail : SettingsSource
  | parseFail : SettingsSource
  | parsed : JValue → SettingsSource

/-- Observable result of a normally terminated run: the document written to
`OUTPUT_PATH` (if any), the process exit code, and the stderr lines the
program printed, in order. -/
structure RunResult : Type where
  written : Option JValue
  exitCode : Nat
  stderrLines : List String

/-- Observable outcome of a run: normal termination, or abnormal termination
by an uncaught exception (carrying the stderr lines the program itself printed
before the throw). -/
inductive RunOutcome : Type where
  | normal : RunResult → RunOutcome
  | abnormal : List String → RunOutcome

/-- The exit code of a run, when the process exited normally. -/
def outcomeExit? : RunOutcome → Option Nat
  | RunOutcome.normal r => some r.exitCode
  | RunOutcome.abnormal _ => none

/-- The document written by a run, when one was written. -/
def outcomeWritten? : RunOutcome → Option JValue
  | RunOutcome.normal r => r.written
  | RunOutcome.abnormal _ => none

/-- The stderr lines printed by the program during a run. -/
def outcomeStderr : RunOutcome → List String
  | RunOutcome.normal r => r.stderrLines
  | RunOutcome.abnormal errs => errs

/-- The `latStr` string of line 62, `readSetting(settings, "Latitude")`. -/
def latStrVal (settings : JValue) : String :=
  readSetting settings "Latitude"

/-- The `lonStr` string of line 63, `readSetting(settings, "Longitude")`. -/
def lonStrVal (settings : JValue) : String :=
  readSetting settings "Longitude"

/-- The `tz` string of line 64, `readSetting(settings, "TimeZone")`. -/
def tzVal (settings : JValue) : String :=
  readSetting settings "TimeZone"

/-- The `lat` double of line 66: `latStr.empty() ? 0.0 : atof(latStr.c_str())`. -/
def latVal (atofFn : String → Rat) (settings : JValue) : Rat :=
  if latStrVal settings = "" then 0 else atofFn (latStrVal settings)

/-- The `lon` double of line 67: `lonStr.empty() ? 0.0 : atof(lonStr.c_str())`. -/
def lonVal (atofFn : String → Rat) (settings : JValue) : Rat :=
  if lonStrVal settings = "" then 0 else atofFn (lonStrVal settings)

/-- The condition of the coordinate check at line 84. -/
def coordCheckFails (atofFn : String → Rat) (settings : JValue) : Prop :=
  latVal atofFn settings = 0 ∨ lonVal atofFn settings = 0

instance (atofFn : String → Rat) (settings : JValue) :
    Decidable (coordCheckFails atofFn settings) := by
  unfold coordCheckFails
  infer_instance

/-- The final value of the `ok` flag (lines 82-102): set false by the
timezone check, else by the coordinate check, else the initial `true`. -/
def okVal (atofFn : String → Rat) (settings : JValue) : Bool :=
  if tzVal settings = "" then false
  else if coordCheckFails atofFn settings then false
  else true

/-- The final value of the `error` member of the output document (the
timezone check runs last, so when both checks fail its message is the one
that survives). -/
def errFieldVal (atofFn : String → Rat) (settings : JValue) : Option String :=
  if tzVal settings = "" then some tzMissingMsg
  else if coordCheckFails atofFn settings then some coordMissingMsg
  else none

/-- The validation warnings printed to stderr, in program order. -/
def warnsVal (atofFn : String → Rat) (settings : JValue) : List String :=
  (if coordCheckFails atofFn settings then [warnCoordLine] else []) ++
  (if tzVal settings = "" then [warnTzLine] else [])

/-- The shape of every document the program writes: the eight members (seven
when no error was recorded) in the key order jsoncpp's `std::map` keeps
them. -/
def snapshotDoc (errField : Option String) (lat lon : Rat) (ok : Bool)
    (locale : JValue) (tz : String) : JValue :=
  JValue.jobj
    ((match errField with
      | some e => [("error", JValue.jstr e)]
      | none => []) ++
     [("latitude", JValue.jnum lat),
      ("longitude", JValue.jnum lon),
      ("ok", JValue.jbool ok),
      ("rawLocale", locale),
      ("schemaVersion", JValue.jint 1),
      ("source", JValue.jstr "gcs-export"),
      ("timezone", JValue.jstr tz)])

/-- Lines 59-116 of `main`, after the settings-loading block: extract the
canonical values (`latVal`, `lonVal`, `tzVal` name the local variables of
lines 62-67), embed the locale, validate, and write the output.  `settings`
is the parsed settings value (null when loading failed), `root` the document
built so far and `errs` the stderr lines printed so far. -/
def gcsExportRest (atofFn : String → Rat) (settings locale : JValue)
    (outputWritable : Bool) (root : JValue) (errs : List String) : RunOutcome :=
  let lat : Rat := latVal atofFn settings
  let lon : Rat := lonVal atofFn settings
  let tz : String := tzVal settings
  let root := setMember root "latitude" (JValue.jnum lat)
  let root := setMember root "longitude" (JValue.jnum lon)
  let root := setMember root "timezone" (JValue.jstr tz)
  let root := setMember root "rawLocale" locale
  let ok := true
  let ok := if coordCheckFails atofFn settings then false else ok
  let root := if coordCheckFails atofFn settings then
      setMember root "error" (JValue.jstr coordMissingMsg)
    else root
  let errs := if coordCheckFails atofFn settings then errs ++ [warnCoordLine] else errs
  let ok := if tz = "" then false else ok
  let root := if tz = "" then setMember root "error" (JValue.jstr tzMissingMsg) else root
  let errs := if tz = "" then errs ++ [warnTzLine] else errs
  let root := setMember root "ok" (JValue.jbool ok)
  if !outputWritable then
    RunOutcome.normal ⟨none, 2, errs ++ [errWriteLine]⟩
  else
    RunOutcome.normal ⟨some root, if ok then 0 else 1, errs⟩

/-- `main` from src/bin/gcs-export.cpp lines 38-117.  On `parseFail` the
jsoncpp stream extraction throws `Json::RuntimeError`; nothing catches it, so
the process terminates abnormally having printed nothing and written
nothing. -/
def gcsExportMain (atofFn : String → Rat) (src : SettingsSource)
    (locale : JValue) (outputWritable : Bool) : RunOutcome :=
  let root := setMember (JValue.jobj []) "schemaVersion" (JValue.jint 1)
  let root := setMember root "source" (JValue.jstr "gcs-export")
  match src with
  | SettingsSource.parseFail => RunOutcome.abnormal []
  | SettingsSource.openFail =>
    let root := setMember root "ok" (JValue.jbool false)
    let root := setMember root "error" (JValue.jstr openFailMsg)
    gcsExportRest atofFn JValue.jnull locale outputWritable root [errOpenLine]
  | SettingsSource.parsed doc =>
    gcsExportRest atofFn doc locale outputWritable root []

/-- Top-level member keys of an object, in stored order. -/
def topKeys : JValue → List String
  | JValue.jobj ms => ms.map Prod.fst
  | _ => []

/-- The settings value the run works with: the parsed document, or the
default-constructed null value when the file could not be loaded. -/
def settingsOf : SettingsSource → JValue
  | SettingsSource.parsed d => d
  | _ => JValue.jnull

/-- A list of keys is strictly ascending in `strLt` order. -/
def sortedKeys : List String → Bool
  | [] => true
  | [_] => true
  | a :: b :: rest => strLt a b && sortedKeys (b :: rest)

/-- Test conversion table standing in for `atof`: the two Scenario A
coordinate strings convert to their decimal values, everything else to 0. -/
def atofA : String → Rat :=
  fun s => if s = "41.8" then mkRat 209 5 else if s = "-87.6" then mkRat (-438) 5 else 0

/-- Scenario A settings document. -/
def docA : JValue :=
  JValue.jobj
    [("Latitude", JValue.jstr "41.8"), ("Longitude", JValue.jstr "-87.6"),
     ("TimeZone", JValue.jstr "America/Chicago")]

/-- Scenario C settings document: `Latitude="0"`. -/
def docC : JValue :=
  JValue.jobj
    [("Latitude", JValue.jstr "0"), ("Longitude", JValue.jstr "-87.6"),
     ("TimeZone", JValue.jstr "America/Chicago")]

/-- Variant of Scenario C with the other coordinate zero: `Longitude="0"`. -/
def docD : JValue :=
  JValue.jobj
    [("Latitude", JValue.jstr "41.8"), ("Longitude", JValue.jstr "0"),
     ("TimeZone", JValue.jstr "America/Chicago")]

/-- A settings document storing `Latitude` as a JSON number, not a string. -/
def settingsNum : JValue :=
  JValue.jobj [("Latitude", JValue.jnum 42)]

/-- Byte-wise "s starts with pre" on the underlying character lists (kept
executable so the kernel can evaluate it on the concrete diagnostic lines). -/
def startsWithStr (s pre : String) : Bool :=
  List.take pre.data.length s.data == pre.data

/-- Characterization of a run whose settings file opens and parses: the
document, exit code and diagnostics as functions of the parsed document, the
locale payload and output writability. -/
theorem main_parsed_eq (atofFn : String → Rat) (doc locale : JValue) (w : Bool) :
    gcsExportMain atofFn (SettingsSource.parsed doc) locale w =
      RunOutcome.normal
        { written :=
            if w then
              some (snapshotDoc (errFieldVal atofFn doc) (latVal atofFn doc)
                (lonVal atofFn doc) (okVal atofFn doc) locale (tzVal doc))
            else none,
          exitCode := if w then (if okVal atofFn doc then 0 else 1) else 2,
          stderrLines := warnsVal atofFn doc ++ (if w then [] else [errWriteLine]) } := by
  cases w <;>
    (simp only [gcsExportMain, gcsExportRest, okVal, errFieldVal, warnsVal, snapshotDoc,
      Bool.not_false, Bool.not_true, if_true, if_false]
     split_ifs <;> first | rfl | contradiction)

/-- Characterization of a run whose settings file cannot be opened: all
settings-derived values are defaults, both validation checks fail, and the
early `ok`/`error` members are overwritten by validation. -/
theorem main_openFail_eq (atofFn : String → Rat) (locale : JValue) (w : Bool) :
    gcsExportMain atofFn SettingsSource.openFail locale w =
      RunOutcome.normal
        { written :=
            if w then some (snapshotDoc (some tzMissingMsg) 0 0 false locale "") else none,
          exitCode := if w then 1 else 2,
          stderrLines :=
            [errOpenLine, warnCoordLine, warnTzLine] ++ (if w then [] else [errWriteLine]) } := by
  cases w <;> rfl

theorem snapshot_get_error (ef : Option String) (lat lon : Rat) (ok : Bool)
    (locale : JValue) (tz : String) :
    getMember? (snapshotDoc ef lat lon ok locale tz) "error" = Option.map JValue.jstr ef := by
  cases ef <;> rfl

theorem snapshot_get_latitude (ef : Option String) (lat lon : Rat) (ok : Bool)
    (locale : JValue) (tz : String) :
    getMember? (snapshotDoc ef lat lon ok locale tz) "latitude" = some (JValue.jnum lat) := by
  cases ef <;> rfl

theorem snapshot_get_longitude (ef : Option String) (lat lon : Rat) (ok : Bool)
    (locale : JValue) (tz : String) :
    getMember? (snapshotDoc ef lat lon ok locale tz) "longitude" = some (JValue.jnum lon) := by
  cases ef <;> rfl

theorem snapshot_get_ok (ef : Option String) (lat lon : Rat) (ok : Bool)
    (locale : JValue) (tz : String) :
    getMember? (snapshotDoc ef lat lon ok locale tz) "ok" = some (JValue.jbool ok) := by
  cases ef <;> rfl

theorem snapshot_get_schemaVersion (ef : Option String) (lat lon : Rat) (ok : Bool)
    (locale : JValue) (tz : String) :
    getMember? (snapshotDoc ef lat lon ok locale tz) "schemaVersion" = some (JValue.jint 1) := by
  cases ef <;> rfl

theorem snapshot_get_source (ef : Option String) (lat lon : Rat) (ok : Bool)
    (locale : JValue) (tz : String) :
    getMember? (snapshotDoc ef lat lon ok locale tz) "source" = some (JValue.jstr "gcs-export") := by
  cases ef <;> rfl

theorem snapshot_get_timezone (ef : Option String) (lat lon : Rat) (ok : Bool)
    (locale : JValue) (tz : String) :
    getMember? (snapshotDoc ef lat lon ok locale tz) "timezone" = some (JValue.jstr tz) := by
  cases ef <;> rfl

theorem snapshot_keys_sorted (ef : Option String) (lat lon : Rat) (ok : Bool)
    (locale : JValue) (tz : String) :
    sortedKeys (topKeys (snapshotDoc ef lat lon ok locale tz)) = true := by
  cases ef <;> rfl

theorem errFieldVal_isSome_iff (atofFn : String → Rat) (settings : JValue) :
    (errFieldVal atofFn settings).isSome = true ↔ okVal atofFn settings = false := by
  unfold errFieldVal okVal
  split_ifs <;> simp


theorem isSome_map_jstr (o : Option String) :
    (Option.map JValue.jstr o).isSome = o.isSome := by
  cases o <;> rfl

/-- Claim C10: for every settings document and every key, `readSetting`
returns the empty string whenever the document is not a JSON object, the key
is absent, or the key maps to a non-string JSON value; a settings member
stored as a JSON number (or any non-string type) is treated exactly as if the
field were missing. -/
theorem readSetting_default_on_missing_or_nonstring :
    ∀ (settings : JValue) (key : String),
      (jIsObject settings = false ∨ getMember? settings key = none ∨
        ∀ s, getMember? settings key ≠ some (JValue.jstr s)) →
      readSetting settings key = "" := by
  intro settings key h
  rcases h with h | h | h
  · simp [readSetting, h]
  · simp [readSetting, isMember, h]
  · cases hv : getMember? settings key with
    | none => simp [readSetting, isMember, hv]
    | some v =>
      cases v with
      | jstr s => exact absurd hv (h s)
      | jnull => simp [readSetting, isMember, hv, jIsString]
      | jbool b => simp [readSetting, isMember, hv, jIsString]
      | jint n => simp [readSetting, isMember, hv, jIsString]
      | jnum q => simp [readSetting, isMember, hv, jIsString]
      | jobj ms => simp [readSetting, isMember, hv, jIsString]

/-- Witness for C10: a `Latitude` stored as the JSON number 42 is read as the
empty string, exactly like a missing field. -/
theorem readSetting_number_treated_missing :
    getMember? settingsNum "Latitude" = some (JValue.jnum 42) ∧
    readSetting settingsNum "Latitude" = "" :=
  ⟨rfl,
    readSetting_default_on_missing_or_nonstring settingsNum "Latitude"
      (Or.inr (Or.inr (fun s h => by
        rw [show getMember? settingsNum "Latitude" = some (JValue.jnum 42) from rfl] at h
        exact JValue.noConfusion (Option.some.inj h))))⟩

/-- Claim C6: every written snapshot, regardless of validation outcome or
settings availability, contains `schemaVersion == 1` (a JSON integer) and
`source == "gcs-export"`. -/
theorem written_has_schemaVersion_and_source :
    ∀ (atofFn : String → Rat) (src : SettingsSource) (locale : JValue) (w : Bool)
      (r : RunResult) (d : JValue),
      gcsExportMain atofFn src locale w = RunOutcome.normal r → r.written = some d →
      getMember? d "schemaVersion" = some (JValue.jint 1) ∧
      getMember? d "source" = some (JValue.jstr "gcs-export") := by
  intro atofFn src locale w r d hrun hwd
  cases src with
  | parseFail => simp [gcsExportMain] at hrun
  | openFail =>
    rw [main_openFail_eq] at hrun
    injection hrun with h
    subst h
    cases w with
    | false => simp at hwd
    | true =>
      simp only [if_true, Option.some.injEq] at hwd
      subst hwd
      exact ⟨snapshot_get_schemaVersion _ _ _ _ _ _, snapshot_get_source _ _ _ _ _ _⟩
  | parsed doc =>
    rw [main_parsed_eq] at hrun
    injection hrun with h
    subst h
    cases w with
    | false => simp at hwd
    | true =>
      simp only [if_true, Option.some.injEq] at hwd
      subst hwd
      exact ⟨snapshot_get_schemaVersion _ _ _ _ _ _, snapshot_get_source _ _ _ _ _ _⟩

/-- Witness for C6 at a settings-file-unopenable run. -/
theorem written_has_schemaVersion_and_source_witness :
    gcsExportMain atofA SettingsSource.openFail JValue.jnull true =
      RunOutcome.normal ⟨some (snapshotDoc (some tzMissingMsg) 0 0 false JValue.jnull ""), 1,
        [errOpenLine, warnCoordLine, warnTzLine]⟩ ∧
    (getMember? (snapshotDoc (some tzMissingMsg) 0 0 false JValue.jnull "") "schemaVersion" =
        some (JValue.jint 1) ∧
      getMember? (snapshotDoc (some tzMissingMsg) 0 0 false JValue.jnull "") "source" =
        some (JValue.jstr "gcs-export")) :=
  ⟨rfl,
    written_has_schemaVersion_and_source atofA SettingsSource.openFail JValue.jnull true
      ⟨some (snapshotDoc (some tzMissingMsg) 0 0 false JValue.jnull ""), 1,
        [errOpenLine, warnCoordLine, warnTzLine]⟩
      (snapshotDoc (some tzMissingMsg) 0 0 false JValue.jnull "") rfl rfl⟩

/-- Claim C5: in every written snapshot the `error` member is present if and
only if the `ok` member is `false`; no written document carries both
`ok == true` and an `error` member. -/
theorem error_member_iff_not_ok :
    ∀ (atofFn : String → Rat) (src : SettingsSource) (locale : JValue) (w : Bool)
      (r : RunResult) (d : JValue),
      gcsExportMain atofFn src locale w = RunOutcome.normal r → r.written = some d →
      ((getMember? d "error").isSome = true ↔ getMember? d "ok" = some (JValue.jbool false)) := by
  intro atofFn src locale w r d hrun hwd
  cases src with
  | parseFail => simp [gcsExportMain] at hrun
  | openFail =>
    rw [main_openFail_eq] at hrun
    injection hrun with h
    subst h
    cases w with
    | false => simp at hwd
    | true =>
      simp only [if_true, Option.some.injEq] at hwd
      subst hwd
      simp [snapshot_get_error, snapshot_get_ok]
  | parsed doc =>
    rw [main_parsed_eq] at hrun
    injection hrun with h
    subst h
    cases w with
    | false => simp at hwd
    | true =>
      simp only [if_true, Option.some.injEq] at hwd
      subst hwd
      rw [snapshot_get_error, snapshot_get_ok, isSome_map_jstr]
      simp only [Option.some.injEq, JValue.jbool.injEq]
      exact errFieldVal_isSome_iff atofFn doc

/-- Witness for C5 at a run with empty parsed settings (both members agree:
`error` present, `ok` false). -/
theorem error_member_iff_not_ok_witness :
    gcsExportMain atofA (SettingsSource.parsed (JValue.jobj [])) JValue.jnull true =
      RunOutcome.normal ⟨some (snapshotDoc (some tzMissingMsg) 0 0 false JValue.jnull ""), 1,
        [warnCoordLine, warnTzLine]⟩ ∧
    ((getMember? (snapshotDoc (some tzMissingMsg) 0 0 false JValue.jnull "") "error").isSome = true ↔
      getMember? (snapshotDoc (some tzMissingMsg) 0 0 false JValue.jnull "") "ok" =
        some (JValue.jbool false)) :=
  ⟨rfl,
    error_member_iff_not_ok atofA (SettingsSource.parsed (JValue.jobj [])) JValue.jnull true
      ⟨some (snapshotDoc (some tzMissingMsg) 0 0 false JValue.jnull ""), 1,
        [warnCoordLine, warnTzLine]⟩
      (snapshotDoc (some tzMissingMsg) 0 0 false JValue.jnull "") rfl rfl⟩

/-- Claim C9: the exporter is deterministic — two runs with the same settings
document, locale payload, conversion table and output-path state produce the
same outcome, and every written document keeps its member keys in the fixed
sorted order, so the serialized bytes cannot vary between runs. -/
theorem export_idempotent_stable_keys :
    ∀ (a₁ a₂ : String → Rat) (s₁ s₂ : SettingsSource) (l₁ l₂ : JValue) (w₁ w₂ : Bool),
      a₁ = a₂ → s₁ = s₂ → l₁ = l₂ → w₁ = w₂ →
      gcsExportMain a₁ s₁ l₁ w₁ = gcsExportMain a₂ s₂ l₂ w₂ ∧
      ∀ (r : RunResult) (d : JValue),
        gcsExportMain a₁ s₁ l₁ w₁ = RunOutcome.normal r → r.written = some d →
        sortedKeys (topKeys d) = true := by
  intro a₁ a₂ s₁ s₂ l₁ l₂ w₁ w₂ ha hs hl hw
  subst ha
  subst hs
  subst hl
  subst hw
  refine ⟨rfl, ?_⟩
  intro r d hrun hwd
  cases s₁ with
  | parseFail => simp [gcsExportMain] at hrun
  | openFail =>
    rw [main_openFail_eq] at hrun
    injection hrun with h
    subst h
    cases w₁ with
    | false => simp at hwd
    | true =>
      simp only [if_true, Option.some.injEq] at hwd
      subst hwd
      exact snapshot_keys_sorted _ _ _ _ _ _
  | parsed doc =>
    rw [main_parsed_eq] at hrun
    injection hrun with h
    subst h
    cases w₁ with
    | false => simp at hwd
    | true =>
      simp only [if_true, Option.some.injEq] at hwd
      subst hwd
      exact snapshot_keys_sorted _ _ _ _ _ _

/-- Witness for C9 at a settings-file-unopenable run. -/
theorem export_idempotent_stable_keys_witness :
    gcsExportMain atofA SettingsSource.openFail JValue.jnull true =
      gcsExportMain atofA SettingsSource.openFail JValue.jnull true ∧
    sortedKeys (topKeys (snapshotDoc (some tzMissingMsg) 0 0 false JValue.jnull "")) = true :=
  ⟨(export_idempotent_stable_keys atofA atofA SettingsSource.openFail SettingsSource.openFail
      JValue.jnull JValue.jnull true true rfl rfl rfl rfl).1,
    (export_idempotent_stable_keys atofA atofA SettingsSource.openFail SettingsSource.openFail
      JValue.jnull JValue.jnull true true rfl rfl rfl rfl).2
      ⟨some (snapshotDoc (some tzMissingMsg) 0 0 false JValue.jnull ""), 1,
        [errOpenLine, warnCoordLine, warnTzLine]⟩
      (snapshotDoc (some tzMissingMsg) 0 0 false JValue.jnull "") rfl rfl⟩

/-- Claim C4: when both the coordinate check and the timezone check fail,
both checks run (a WARN line is emitted for each), and any written snapshot's
`error` member holds only the timezone message — the message of the last
failing check. -/
theorem both_checks_fail_no_short_circuit :
    ∀ (atofFn : String → Rat) (src : SettingsSource) (locale : JValue) (w : Bool),
      src ≠ SettingsSource.parseFail →
      coordCheckFails atofFn (settingsOf src) →
      tzVal (settingsOf src) = "" →
      ∃ r, gcsExportMain atofFn src locale w = RunOutcome.normal r ∧
        warnCoordLine ∈ r.stderrLines ∧ warnTzLine ∈ r.stderrLines ∧
        ∀ d, r.written = some d → getMember? d "error" = some (JValue.jstr tzMissingMsg) := by
  intro atofFn src locale w hne hc ht
  cases src with
  | parseFail => exact absurd rfl hne
  | openFail =>
    refine ⟨_, main_openFail_eq atofFn locale w, ?_, ?_, ?_⟩
    · simp
    · simp
    · intro d hwd
      cases w with
      | false => simp at hwd
      | true =>
        simp only [if_true, Option.some.injEq] at hwd
        subst hwd
        rw [snapshot_get_error]
        rfl
  | parsed doc =>
    have hc₂ : coordCheckFails atofFn doc := hc
    have ht₂ : tzVal doc = "" := ht
    refine ⟨_, main_parsed_eq atofFn doc locale w, ?_, ?_, ?_⟩
    · rw [warnsVal, if_pos hc₂]
      simp
    · rw [warnsVal, if_pos ht₂]
      simp
    · intro d hwd
      cases w with
      | false => simp at hwd
      | true =>
        simp only [if_true, Option.some.injEq] at hwd
        subst hwd
        rw [snapshot_get_error, errFieldVal, if_pos ht₂]
        rfl

/-- Witness for C4 at empty parsed settings: both checks fail, both WARN
lines appear, the snapshot's error member is the timezone message. -/
theorem both_checks_fail_no_short_circuit_witness :
    (coordCheckFails atofA (settingsOf (SettingsSource.parsed (JValue.jobj []))) ∧
      tzVal (settingsOf (SettingsSource.parsed (JValue.jobj []))) = "") ∧
    ∃ r, gcsExportMain atofA (SettingsSource.parsed (JValue.jobj [])) JValue.jnull true =
        RunOutcome.normal r ∧
      warnCoordLine ∈ r.stderrLines ∧ warnTzLine ∈ r.stderrLines ∧
      ∀ d, r.written = some d → getMember? d "error" = some (JValue.jstr tzMissingMsg) :=
  ⟨⟨by decide, by decide⟩,
    both_checks_fail_no_short_circuit atofA (SettingsSource.parsed (JValue.jobj []))
      JValue.jnull true (fun h => SettingsSource.noConfusion h) (by decide) (by decide)⟩

/-- Counterexample to claim C1 as stated: Scenario A settings (non-empty
timezone, non-zero coordinates) with an unwritable output path — the run
writes nothing and exits 2, not 0. -/
theorem valid_settings_unwritable_exits_2 :
    gcsExportMain atofA (SettingsSource.parsed docA) JValue.jnull false =
      RunOutcome.normal ⟨none, 2, [errWriteLine]⟩ ∧
    outcomeExit? (gcsExportMain atofA (SettingsSource.parsed docA) JValue.jnull false) ≠
      some 0 :=
  ⟨rfl, by decide⟩

/-- Claim C1 (amended): for every run in which the settings file parses and
yields a non-empty TimeZone string and Latitude and Longitude strings
converting to non-zero doubles, AND the output path can be opened for
writing, the written snapshot has `ok == true`, contains no `error` member,
and the process exits with code 0 (emitting no diagnostics). -/
theorem export_ok_when_valid_settings_writable :
    ∀ (atofFn : String → Rat) (doc locale : JValue),
      tzVal doc ≠ "" →
      latStrVal doc ≠ "" → atofFn (latStrVal doc) ≠ 0 →
      lonStrVal doc ≠ "" → atofFn (lonStrVal doc) ≠ 0 →
      ∃ d, gcsExportMain atofFn (SettingsSource.parsed doc) locale true =
          RunOutcome.normal ⟨some d, 0, []⟩ ∧
        getMember? d "ok" = some (JValue.jbool true) ∧
        getMember? d "error" = none := by
  intro atofFn doc locale htz hlat hlat0 hlon hlon0
  have hlatv : latVal atofFn doc ≠ 0 := by
    rw [latVal, if_neg hlat]
    exact hlat0
  have hlonv : lonVal atofFn doc ≠ 0 := by
    rw [lonVal, if_neg hlon]
    exact hlon0
  have hcf : ¬ coordCheckFails atofFn doc := by
    rw [coordCheckFails]
    rintro (h | h)
    · exact hlatv h
    · exact hlonv h
  have hok : okVal atofFn doc = true := by
    rw [okVal, if_neg htz, if_neg hcf]
  have hef : errFieldVal atofFn doc = none := by
    rw [errFieldVal, if_neg htz, if_neg hcf]
  have hwarns : warnsVal atofFn doc = [] := by
    rw [warnsVal, if_neg hcf, if_neg htz]
    rfl
  refine ⟨snapshotDoc (errFieldVal atofFn doc) (latVal atofFn doc) (lonVal atofFn doc)
    (okVal atofFn doc) locale (tzVal doc), ?_, ?_, ?_⟩
  · rw [main_parsed_eq]
    simp [hok, hwarns]
  · rw [snapshot_get_ok, hok]
  · rw [snapshot_get_error, hef]
    rfl

/-- Witness for the amended C1 at Scenario A settings. -/
theorem export_ok_when_valid_settings_writable_witness :
    (tzVal docA ≠ "" ∧ latStrVal docA ≠ "" ∧ atofA (latStrVal docA) ≠ 0 ∧
      lonStrVal docA ≠ "" ∧ atofA (lonStrVal docA) ≠ 0) ∧
    ∃ d, gcsExportMain atofA (SettingsSource.parsed docA) JValue.jnull true =
        RunOutcome.normal ⟨some d, 0, []⟩ ∧
      getMember? d "ok" = some (JValue.jbool true) ∧
      getMember? d "error" = none :=
  ⟨⟨by decide, by decide, by decide, by decide, by decide⟩,
    export_ok_when_valid_settings_writable atofA docA JValue.jnull (by decide) (by decide)
      (by decide) (by decide) (by decide)⟩

/-- Counterexample to claim C3 as stated: when the settings file opens but
cannot be parsed, the jsoncpp stream-extraction exception propagates out of
`main`: the process terminates abnormally, no snapshot is written and there
is no exit code 1. -/
theorem parse_failure_writable_aborts :
    gcsExportMain atofA SettingsSource.parseFail JValue.jnull true = RunOutcome.abnormal [] ∧
    outcomeWritten? (gcsExportMain atofA SettingsSource.parseFail JValue.jnull true) = none ∧
    outcomeExit? (gcsExportMain atofA SettingsSource.parseFail JValue.jnull true) ≠ some 1 :=
  ⟨rfl, rfl, by decide⟩

/-- Claim C3 (amended): when the settings file cannot be OPENED, the exporter
treats all settings-derived fields as missing and proceeds with defaults
(timezone `""`, latitude `0.0`, longitude `0.0`), terminates normally for
either output-path state, and — when the output path is writable — still
writes the snapshot with `ok == false` and an error message and exits with
code 1.  (When the file opens but cannot be PARSED, the parse exception
instead propagates uncaught and nothing is written — see the
counterexample.) -/
theorem openFail_defaults_written_exit1 :
    ∀ (atofFn : String → Rat) (locale : JValue),
      (∀ w, ∃ r, gcsExportMain atofFn SettingsSource.openFail locale w = RunOutcome.normal r) ∧
      ∃ d, gcsExportMain atofFn SettingsSource.openFail locale true =
          RunOutcome.normal ⟨some d, 1, [errOpenLine, warnCoordLine, warnTzLine]⟩ ∧
        getMember? d "timezone" = some (JValue.jstr "") ∧
        getMember? d "latitude" = some (JValue.jnum 0) ∧
        getMember? d "longitude" = some (JValue.jnum 0) ∧
        getMember? d "ok" = some (JValue.jbool false) ∧
        getMember? d "error" = some (JValue.jstr tzMissingMsg) := by
  intro atofFn locale
  constructor
  · intro w
    exact ⟨_, main_openFail_eq atofFn locale w⟩
  · refine ⟨snapshotDoc (some tzMissingMsg) 0 0 false locale "", ?_, ?_, ?_, ?_, ?_, ?_⟩
    · rw [main_openFail_eq]
      rfl
    · exact snapshot_get_timezone _ _ _ _ _ _
    · exact snapshot_get_latitude _ _ _ _ _ _
    · exact snapshot_get_longitude _ _ _ _ _ _
    · exact snapshot_get_ok _ _ _ _ _ _
    · rw [snapshot_get_error]
      rfl

/-- Counterexample to claim C7 as stated: `Latitude="0"` with an unwritable
output path exits 2, not 1. -/
theorem zero_latitude_unwritable_exits_2 :
    gcsExportMain atofA (SettingsSource.parsed docC) JValue.jnull false =
      RunOutcome.normal ⟨none, 2, [warnCoordLine, errWriteLine]⟩ ∧
    outcomeExit? (gcsExportMain atofA (SettingsSource.parsed docC) JValue.jnull false) ≠
      some 1 :=
  ⟨rfl, by decide⟩

/-- Claim C7 (amended): when a coordinate setting is present but converts to
exactly 0.0 and the output path can be opened for writing, the coordinate is
treated as missing: `ok` is false, the coordinate WARN diagnostic is emitted,
the coordinate error message is recorded in the snapshot whenever the
timezone check passes (a later timezone failure would overwrite it), and the
process exits with code 1. -/
theorem zero_coordinate_treated_missing :
    ∀ (atofFn : String → Rat) (doc locale : JValue),
      (latStrVal doc ≠ "" ∧ atofFn (latStrVal doc) = 0) ∨
        (lonStrVal doc ≠ "" ∧ atofFn (lonStrVal doc) = 0) →
      ∃ r, gcsExportMain atofFn (SettingsSource.parsed doc) locale true = RunOutcome.normal r ∧
        r.exitCode = 1 ∧ warnCoordLine ∈ r.stderrLines ∧
        ∃ d, r.written = some d ∧ getMember? d "ok" = some (JValue.jbool false) ∧
          (tzVal doc ≠ "" → getMember? d "error" = some (JValue.jstr coordMissingMsg)) := by
  intro atofFn doc locale h0
  have hcf : coordCheckFails atofFn doc := by
    rcases h0 with ⟨hne, h0⟩ | ⟨hne, h0⟩
    · exact Or.inl (by rw [latVal, if_neg hne]; exact h0)
    · exact Or.inr (by rw [lonVal, if_neg hne]; exact h0)
  have hok : okVal atofFn doc = false := by
    rw [okVal]
    split_ifs with h1
    · rfl
    · rfl
  refine ⟨_, main_parsed_eq atofFn doc locale true, ?_, ?_, ?_⟩
  · simp [hok]
  · rw [warnsVal, if_pos hcf]
    simp
  · refine ⟨snapshotDoc (errFieldVal atofFn doc) (latVal atofFn doc) (lonVal atofFn doc)
      (okVal atofFn doc) locale (tzVal doc), ?_, ?_, ?_⟩
    · rfl
    · rw [snapshot_get_ok, hok]
    · intro htz
      rw [snapshot_get_error, errFieldVal, if_neg htz, if_pos hcf]
      rfl

/-- Witness for the amended C7 at the `Longitude="0"` variant of Scenario C
(the Latitude string converts to a non-zero value there, so the zero
longitude alone triggers the missing-coordinate treatment). -/
theorem zero_coordinate_treated_missing_witness :
    ((latStrVal docD ≠ "" ∧ atofA (latStrVal docD) = 0) ∨
      (lonStrVal docD ≠ "" ∧ atofA (lonStrVal docD) = 0)) ∧
    ∃ r, gcsExportMain atofA (SettingsSource.parsed docD) JValue.jnull true =
        RunOutcome.normal r ∧
      r.exitCode = 1 ∧ warnCoordLine ∈ r.stderrLines ∧
      ∃ d, r.written = some d ∧ getMember? d "ok" = some (JValue.jbool false) ∧
        (tzVal docD ≠ "" → getMember? d "error" = some (JValue.jstr coordMissingMsg)) :=
  ⟨Or.inr ⟨by decide, by decide⟩,
    zero_coordinate_treated_missing atofA docD JValue.jnull
      (Or.inr ⟨by decide, by decide⟩)⟩

theorem warnsVal_mem (atofFn : String → Rat) (s : JValue) (l : String) :
    l ∈ warnsVal atofFn s → l = warnCoordLine ∨ l = warnTzLine := by
  intro h
  rw [warnsVal] at h
  split_ifs at h <;> simp at h <;> tauto

/-- Counterexample to claim C2 as stated: with an unparseable settings file
and an unwritable output path, the run aborts on the parse exception — the
exit code is not 2 and no ERROR diagnostic is emitted even though the output
path cannot be opened for writing. -/
theorem parse_failure_unwritable_aborts :
    gcsExportMain atofA SettingsSource.parseFail JValue.jnull false = RunOutcome.abnormal [] ∧
    outcomeExit? (gcsExportMain atofA SettingsSource.parseFail JValue.jnull false) ≠ some 2 ∧
    errWriteLine ∉ outcomeStderr (gcsExportMain atofA SettingsSource.parseFail JValue.jnull false) :=
  ⟨rfl, by decide, by decide⟩

/-- Claim C2 (amended): for every run in which the settings parse step does
not throw, the exit code is exactly 0 when the written document has
`ok == true`, exactly 1 when the written document has `ok == false`, and when
the output path cannot be opened for writing the exit code is exactly 2, no
document is written and the write ERROR diagnostic is emitted. -/
theorem exit_code_trichotomy :
    ∀ (atofFn : String → Rat) (src : SettingsSource) (locale : JValue) (w : Bool),
      src ≠ SettingsSource.parseFail →
      ∃ r, gcsExportMain atofFn src locale w = RunOutcome.normal r ∧
        (∀ d, r.written = some d → getMember? d "ok" = some (JValue.jbool true) →
          r.exitCode = 0) ∧
        (∀ d, r.written = some d → getMember? d "ok" = some (JValue.jbool false) →
          r.exitCode = 1) ∧
        (w = true → ∃ d, r.written = some d) ∧
        (w = false → r.exitCode = 2 ∧ r.written = none ∧ errWriteLine ∈ r.stderrLines) := by
  intro atofFn src locale w hne
  cases src with
  | parseFail => exact absurd rfl hne
  | openFail =>
    refine ⟨_, main_openFail_eq atofFn locale w, ?_, ?_, ?_, ?_⟩
    · intro d hwd hok
      cases w with
      | false => simp at hwd
      | true =>
        simp only [if_true, Option.some.injEq] at hwd
        subst hwd
        rw [snapshot_get_ok] at hok
        simp at hok
    · intro d hwd hok
      cases w with
      | false => simp at hwd
      | true => rfl
    · intro hw
      subst hw
      exact ⟨_, rfl⟩
    · intro hw
      subst hw
      exact ⟨rfl, rfl, by simp⟩
  | parsed doc =>
    refine ⟨_, main_parsed_eq atofFn doc locale w, ?_, ?_, ?_, ?_⟩
    · intro d hwd hok
      cases w with
      | false => simp at hwd
      | true =>
        simp only [if_true, Option.some.injEq] at hwd
        subst hwd
        rw [snapshot_get_ok] at hok
        simp only [Option.some.injEq, JValue.jbool.injEq] at hok
        simp [hok]
    · intro d hwd hok
      cases w with
      | false => simp at hwd
      | true =>
        simp only [if_true, Option.some.injEq] at hwd
        subst hwd
        rw [snapshot_get_ok] at hok
        simp only [Option.some.injEq, JValue.jbool.injEq] at hok
        simp [hok]
    · intro hw
      subst hw
      exact ⟨_, rfl⟩
    · intro hw
      subst hw
      exact ⟨rfl, rfl, by simp⟩

/-- Witness for the amended C2 at Scenario A settings with a writable output
path. -/
theorem exit_code_trichotomy_witness :
    (SettingsSource.parsed docA ≠ SettingsSource.parseFail) ∧
    ∃ r, gcsExportMain atofA (SettingsSource.parsed docA) JValue.jnull true =
        RunOutcome.normal r ∧
      (∀ d, r.written = some d → getMember? d "ok" = some (JValue.jbool true) →
        r.exitCode = 0) ∧
      (∀ d, r.written = some d → getMember? d "ok" = some (JValue.jbool false) →
        r.exitCode = 1) ∧
      (true = true → ∃ d, r.written = some d) ∧
      (true = false → r.exitCode = 2 ∧ r.written = none ∧ errWriteLine ∈ r.stderrLines) :=
  ⟨fun h => SettingsSource.noConfusion h,
    exit_code_trichotomy atofA (SettingsSource.parsed docA) JValue.jnull true
      (fun h => SettingsSource.noConfusion h)⟩

/-- Counterexample to claim C8 as stated: the non-fatal settings-open failure
is reported on stderr with the `ERROR:` prefix even though the run proceeds
with defaults, writes the snapshot and exits 1. -/
theorem settings_open_failure_error_prefixed :
    gcsExportMain atofA SettingsSource.openFail JValue.jnull true =
      RunOutcome.normal ⟨some (snapshotDoc (some tzMissingMsg) 0 0 false JValue.jnull ""), 1,
        [errOpenLine, warnCoordLine, warnTzLine]⟩ ∧
    errOpenLine ∈ outcomeStderr (gcsExportMain atofA SettingsSource.openFail JValue.jnull true) ∧
    startsWithStr errOpenLine "ERROR:" = true ∧
    outcomeExit? (gcsExportMain atofA SettingsSource.openFail JValue.jnull true) = some 1 :=
  ⟨rfl, by decide, by decide, rfl⟩

/-- Claim C8 (amended): every diagnostic line is one of the four fixed lines;
validation issues carry the `WARN:` prefix; the `ERROR:` prefix is used for
the fatal output-write failure AND ALSO for the non-fatal settings-open
failure; the write ERROR line appears exactly when the output path is
unwritable, and the open ERROR line exactly when the settings file fails to
open. -/
theorem diagnostics_characterization :
    ∀ (atofFn : String → Rat) (src : SettingsSource) (locale : JValue) (w : Bool),
      src ≠ SettingsSource.parseFail →
      ∃ r, gcsExportMain atofFn src locale w = RunOutcome.normal r ∧
        (∀ l ∈ r.stderrLines,
          l = warnCoordLine ∨ l = warnTzLine ∨ l = errOpenLine ∨ l = errWriteLine) ∧
        (startsWithStr warnCoordLine "WARN:" = true ∧
          startsWithStr warnTzLine "WARN:" = true ∧
          startsWithStr errOpenLine "ERROR:" = true ∧
          startsWithStr errWriteLine "ERROR:" = true) ∧
        (errWriteLine ∈ r.stderrLines ↔ w = false) ∧
        (errOpenLine ∈ r.stderrLines ↔ src = SettingsSource.openFail) := by
  intro atofFn src locale w hne
  cases src with
  | parseFail => exact absurd rfl hne
  | openFail =>
    refine ⟨_, main_openFail_eq atofFn locale w, ?_, by decide, ?_, ?_⟩
    · intro l hl
      cases w <;> simp at hl <;> tauto
    · cases w with
      | false =>
        show errWriteLine ∈ [errOpenLine, warnCoordLine, warnTzLine] ++ [errWriteLine] ↔
          false = false
        decide
      | true =>
        show errWriteLine ∈ [errOpenLine, warnCoordLine, warnTzLine] ↔ true = false
        decide
    · cases w with
      | false =>
        show errOpenLine ∈ [errOpenLine, warnCoordLine, warnTzLine] ++ [errWriteLine] ↔
          SettingsSource.openFail = SettingsSource.openFail
        exact ⟨fun _ => rfl, fun _ => by decide⟩
      | true =>
        show errOpenLine ∈ [errOpenLine, warnCoordLine, warnTzLine] ↔
          SettingsSource.openFail = SettingsSource.openFail
        exact ⟨fun _ => rfl, fun _ => by decide⟩
  | parsed doc =>
    refine ⟨_, main_parsed_eq atofFn doc locale w, ?_, by decide, ?_, ?_⟩
    · intro l hl
      cases w with
      | false =>
        simp at hl
        rcases hl with hl | hl
        · rcases warnsVal_mem atofFn doc l hl with h | h <;> tauto
        · tauto
      | true =>
        simp at hl
        rcases warnsVal_mem atofFn doc l hl with h | h <;> tauto
    · cases w with
      | false =>
        constructor
        · intro _
          rfl
        · intro _
          simp
      | true =>
        constructor
        · intro h
          simp at h
          rcases warnsVal_mem atofFn doc errWriteLine h with h₂ | h₂ <;>
            exact absurd h₂ (by decide)
        · intro h
          simp at h
    · constructor
      · intro h
        exfalso
        cases w with
        | false =>
          simp at h
          rcases h with h | h
          · rcases warnsVal_mem atofFn doc errOpenLine h with h₂ | h₂ <;>
              exact absurd h₂ (by decide)
          · exact absurd h (by decide)
        | true =>
          simp at h
          rcases warnsVal_mem atofFn doc errOpenLine h with h₂ | h₂ <;>
            exact absurd h₂ (by decide)
      · intro h
        exact SettingsSource.noConfusion h

/-- Witness for the amended C8 at a settings-file-unopenable, writable run. -/
theorem diagnostics_characterization_witness :
    (SettingsSource.openFail ≠ SettingsSource.parseFail) ∧
    ∃ r, gcsExportMain atofA SettingsSource.openFail JValue.jnull true =
        RunOutcome.normal r ∧
      (∀ l ∈ r.stderrLines,
        l = warnCoordLine ∨ l = warnTzLine ∨ l = errOpenLine ∨ l = errWriteLine) ∧
      (startsWithStr warnCoordLine "WARN:" = true ∧
        startsWithStr warnTzLine "WARN:" = true ∧
        startsWithStr errOpenLine "ERROR:" = true ∧
        startsWithStr errWriteLine "ERROR:" = true) ∧
      (errWriteLine ∈ r.stderrLines ↔ true = false) ∧
      (errOpenLine ∈ r.stderrLines ↔ SettingsSource.openFail = SettingsSource.openFail) :=
  ⟨fun h => SettingsSource.noConfusion h,
    diagnostics_characterization atofA SettingsSource.openFail JValue.jnull true
      (fun h => SettingsSource.noConfusion h)⟩
